import Mathlib

/-!
Shallow embedding of the streaming AI-audio-detection orchestrator of
`pauliano22/lion-mobile`.

The embedded code is the first streaming `App` component of
`src/unnamed/part_000` (lines 440-856): `calculateRMS`,
`processStreamingChunk`, `createWavBlob`, `processAudioChunk`,
`handleStreamingResult`, `startRecording`, `stopRecording`, plus the
single-request flow `processAudio` from `src/App.tsx`.

Modelling conventions:
* JavaScript numbers carrying audio samples and percentages are modelled as
  `ℚ` (the arithmetic the code performs on them - clamping, scaling,
  comparison against thresholds - is exact on the values of interest);
  `Math.sqrt` is modelled as `Real.sqrt`.
* Byte buffers are `List ℕ` of byte values; `DataView.setUint16/32` with
  `littleEndian = true` become explicit little-endian byte splits.
* React `useState`/`useRef` cells become fields of an explicit `AppState`
  record, with state updates applied sequentially.
* The observable side effects the claims speak about (upload calls,
  notifications, falling-edge logs) are recorded in ghost counters /
  emission lists.
-/


/-! ### Streaming configuration (source lines 440-447) -/

def RATE : ℕ := 22050

def CHANNELS : ℕ := 1

def CHUNK_DURATION : ℚ := 4

def STREAM_INTERVAL : ℕ := 500

def BUFFER_DURATION : ℚ := 8

def MIN_VOLUME_THRESHOLD : ℚ := 1 / 10000

/-! ### RMS volume (source lines 501-505)

```js
function calculateRMS(audioData: number[]): number {
  if (audioData.length === 0) return 0;
  const sum = audioData.reduce((acc, val) => acc + val * val, 0);
  return Math.sqrt(sum / audioData.length);
}
```
-/

noncomputable def calculateRMS (audioData : List ℚ) : ℝ :=
  if audioData.length = 0 then 0
  else
    Real.sqrt (((audioData.foldl (fun acc val => acc + val * val) 0 : ℚ) : ℝ) /
      (audioData.length : ℝ))

/-! ### History ledger (source line 696: `setHistory(prev => [detectionResult, ...prev].slice(0, 20))`) -/

structure DetectionResult where
  isAI : Bool
  aiPercent : ℚ
  realPercent : ℚ
  timestamp : ℕ
  chunkId : ℕ
deriving DecidableEq, Repr

def pushHistory (result : DetectionResult) (prev : List DetectionResult) :
    List DetectionResult :=
  (result :: prev).take 20

/-! ### Score parser (source lines 679-683)

```js
const aiMatch = result.match(/AI Generated[^0-9]*(\d+\.?\d*)%/i);
const realMatch = result.match(/Real Voice[^0-9]*(\d+\.?\d*)%/i);
const aiPercent = aiMatch ? parseFloat(aiMatch[1]) : 0;
const realPercent = realMatch ? parseFloat(realMatch[1]) : 0;
```

The two regular expressions are embedded directly: a case-insensitive literal
label, then `[^0-9]*` (which, being followed by `\d`, deterministically skips
to the first digit), then the capture `\d+\.?\d*` matched with JavaScript's
greedy/backtracking order (longest `\d+` first; `\.?` prefers presence), then
a literal `%`.  `String.match` returns the leftmost match; case folding is
ASCII (the labels and inputs are ASCII). -/

def isDigitChar (c : Char) : Bool := 48 ≤ c.toNat && c.toNat ≤ 57

def lowerChar (c : Char) : Char :=
  if 65 ≤ c.toNat && c.toNat ≤ 90 then Char.ofNat (c.toNat + 32) else c

/-- Match a literal pattern case-insensitively at the head of the input,
returning the remaining input on success. -/
def matchLiteralCI : List Char → List Char → Option (List Char)
  | [], rest => some rest
  | _ :: _, [] => none
  | p :: ps, c :: cs =>
      if lowerChar p = lowerChar c then matchLiteralCI ps cs else none

/-- `[^0-9]*` followed by `\d`: skip to the first digit (or the end). -/
def skipNonDigits : List Char → List Char
  | [] => []
  | c :: cs => if isDigitChar c then c :: cs else skipNonDigits cs

/-- Search a list of candidates in order, returning the first `some`. -/
def firstSome {α β : Type} : List α → (α → Option β) → Option β
  | [], _ => none
  | a :: as, f =>
      match f a with
      | some b => some b
      | none => firstSome as f

/-- Try `\d*` (taking `j` digits, longest first, from the digit run `ds`)
followed by a literal `%`; `pre` is the capture accumulated so far. -/
def matchFracTail (pre ds rest : List Char) : Option (List Char) :=
  firstSome ((List.range (ds.length + 1)).map (fun i => ds.length - i)) fun j =>
    match ds.drop j ++ rest with
    | '%' :: _ => some (pre ++ ds.take j)
    | _ => none

/-- Match `\d+\.?\d*%` at the head of `cs`, returning the capture
(everything matched by `\d+\.?\d*`).  Quantifiers are greedy and backtrack
longest-first; `\.?` tries the dot-consuming branch first. -/
def matchNumber (cs : List Char) : Option (List Char) :=
  let d1 := cs.takeWhile isDigitChar
  let rest1 := cs.dropWhile isDigitChar
  if d1.length = 0 then none
  else
    firstSome ((List.range d1.length).map (fun i => d1.length - i)) fun k =>
      let pre := d1.take k
      let after := d1.drop k ++ rest1
      match after with
      | '.' :: after2 =>
          let d2 := after2.takeWhile isDigitChar
          let rest2 := after2.dropWhile isDigitChar
          match matchFracTail (pre ++ ['.']) d2 rest2 with
          | some cap => some cap
          | none => matchFracTail pre [] after
      | _ => matchFracTail pre [] after

/-- Match the whole pattern `<label>[^0-9]*(\d+\.?\d*)%` at the head of `cs`. -/
def matchPatternAt (label cs : List Char) : Option (List Char) :=
  match matchLiteralCI label cs with
  | none => none
  | some rest => matchNumber (skipNonDigits rest)

/-- Leftmost match: try `matchPatternAt` at each successive start position. -/
def searchPattern (label : List Char) : List Char → Option (List Char)
  | [] => matchPatternAt label []
  | c :: cs =>
      match matchPatternAt label (c :: cs) with
      | some cap => some cap
      | none => searchPattern label cs

def digitsToNat (ds : List Char) : ℕ :=
  ds.foldl (fun acc c => acc * 10 + (c.toNat - 48)) 0

/-- `parseFloat` on a capture of shape `\d+\.?\d*`. -/
def parseCapture (cap : List Char) : ℚ :=
  let intPart := cap.takeWhile isDigitChar
  let rest := cap.dropWhile isDigitChar
  let frac :=
    match rest with
    | '.' :: fs => fs
    | _ => []
  (digitsToNat intPart : ℚ) + (digitsToNat frac : ℚ) / (10 ^ frac.length : ℚ)

def aiLabel : List Char := "AI Generated".toList

def realLabel : List Char := "Real Voice".toList

def parseAiPercent (result : String) : ℚ :=
  match searchPattern aiLabel result.toList with
  | some cap => parseCapture cap
  | none => 0

def parseRealPercent (result : String) : ℚ :=
  match searchPattern realLabel result.toList with
  | some cap => parseCapture cap
  | none => 0

/-! ### Detection thresholds

Streaming flow, `src/unnamed/part_000` line 685: `const isAI = aiPercent > 30;`.
Single-request flow, `src/App.tsx` line 265: `const isAI = aiPercent > 50;`. -/

def streamingIsAI (aiPercent : ℚ) : Bool := decide (30 < aiPercent)

def singleIsAI (aiPercent : ℚ) : Bool := decide (50 < aiPercent)

/-! ### Application state and observable emissions

Fields mirror the `useState`/`useRef` cells of the streaming `App` component
(source lines 449-463).  `uploadCalls`, `inFlightUploads` and
`dispatchedWindows` are ghost observables: `uploadCalls` counts
`fetch(HF_API_URL/upload)` calls, `inFlightUploads` counts round trips
started but not yet completed, `dispatchedWindows` records each chunk window
handed to `createWavBlob`/`processAudioChunk`. -/

structure AppState where
  isStreaming : Bool
  isRecording : Bool
  intervalActive : Bool
  audioBuffer : List ℚ
  lastProcessTime : ℕ
  chunkCount : ℕ
  detectionEvent : Bool
  consecutiveDetections : ℕ
  history : List DetectionResult
  lastResult : Option DetectionResult
  uploadCalls : ℕ
  inFlightUploads : ℕ
  dispatchedWindows : List (List ℚ)
deriving DecidableEq, Repr

/-- Observable alert events: a rising-edge alert is the
`Notifications.scheduleNotificationAsync` call (source lines 705-711), a
falling edge is the `Detection event ended` branch (source lines 716-720). -/
inductive Emission where
  | risingAlert (chunkId : ℕ) (aiPercent : ℚ)
  | fallingEdge (chunkId : ℕ)
deriving DecidableEq, Repr

def Emission.isRising : Emission → Bool
  | .risingAlert _ _ => true
  | .fallingEdge _ => false

def Emission.isFalling : Emission → Bool
  | .risingAlert _ _ => false
  | .fallingEdge _ => true

/-! ### `handleStreamingResult` (source lines 676-724)

The classifier text is parsed, the `DetectionResult` is recorded in
`lastResult` and the history ledger, then the hysteresis state machine on
`(detectionEvent, consecutiveDetections)` runs.  `now` stands for
`new Date()`. -/

def handleStreamingResult (result : String) (chunkId : ℕ) (now : ℕ)
    (st : AppState) : AppState × List Emission :=
  let aiPercent := parseAiPercent result
  let realPercent := parseRealPercent result
  let isAI := streamingIsAI aiPercent
  let detectionResult : DetectionResult :=
    ⟨isAI, aiPercent, realPercent, now, chunkId⟩
  let st1 := { st with
    lastResult := some detectionResult,
    history := pushHistory detectionResult st.history }
  if isAI then
    let st2 := { st1 with consecutiveDetections := st1.consecutiveDetections + 1 }
    if st2.detectionEvent then
      (st2, [])
    else
      ({ st2 with detectionEvent := true },
        [Emission.risingAlert chunkId aiPercent])
  else
    if st1.detectionEvent ∧ 0 < st1.consecutiveDetections then
      ({ st1 with detectionEvent := false, consecutiveDetections := 0 },
        [Emission.fallingEdge chunkId])
    else
      (st1, [])

/-! ### Single-request result handling (`src/App.tsx` lines 255-287)

Only the result-to-state part is embedded (parse, threshold 50, prepend to a
history capped at 10, notify when AI). -/

def processAudioResult (result : String) (now : ℕ)
    (prev : List DetectionResult) :
    DetectionResult × List DetectionResult × Bool :=
  let aiPercent := parseAiPercent result
  let realPercent := parseRealPercent result
  let isAI := singleIsAI aiPercent
  let detectionResult : DetectionResult := ⟨isAI, aiPercent, realPercent, now, 0⟩
  (detectionResult, (detectionResult :: prev).take 10, isAI)

/-- Concrete session-start state (the resets of `startRecording`,
source lines 730-734): empty buffer, zero counters, no active detection. -/
def stTestHyst : AppState :=
  { isStreaming := true, isRecording := true, intervalActive := true,
    audioBuffer := [], lastProcessTime := 0, chunkCount := 0,
    detectionEvent := false, consecutiveDetections := 0, history := [],
    lastResult := none, uploadCalls := 0, inFlightUploads := 0,
    dispatchedWindows := [] }

/-! ### Chunk scheduler (source lines 508-548)

```js
async function processStreamingChunk() {
  if (!isStreamingRef.current || audioBufferRef.current.length === 0) return;
  const now = Date.now();
  if (now - lastProcessTimeRef.current < streamingConfig.STREAM_INTERVAL) return;
  lastProcessTimeRef.current = now;
  const bufferCopy = [...audioBufferRef.current];
  const bufferDuration = bufferCopy.length / streamingConfig.RATE;
  if (bufferDuration < streamingConfig.CHUNK_DURATION) { ...; return; }
  const volume = calculateRMS(bufferCopy);
  if (volume < streamingConfig.MIN_VOLUME_THRESHOLD) { ...; return; }
  const samplesNeeded = Math.floor(streamingConfig.CHUNK_DURATION * streamingConfig.RATE);
  const chunkData = bufferCopy.slice(-samplesNeeded);
  const currentChunkId = chunkCount + 1;
  setChunkCount(currentChunkId);
  ...
  const wavBlob = await createWavBlob(chunkData, streamingConfig.RATE);
  await processAudioChunk(wavBlob, currentChunkId);
}
```

A dispatch (the `createWavBlob`/`processAudioChunk` call) bumps the ghost
counters `uploadCalls`/`inFlightUploads` and records the window; the network
round trip completes later via `onChunkCompletion`.  Note the only dispatch
guard is the elapsed-time check against `lastProcessTime`. -/

def samplesNeeded : ℕ := (⌊CHUNK_DURATION * (RATE : ℚ)⌋).toNat

/-- `bufferCopy.slice(-samplesNeeded)`: the last `samplesNeeded` elements. -/
def chunkWindow (bufferCopy : List ℚ) : List ℚ :=
  bufferCopy.drop (bufferCopy.length - samplesNeeded)

open Classical in

noncomputable def processStreamingChunk (now : ℕ) (st : AppState) : AppState :=
  if st.isStreaming = false ∨ st.audioBuffer.length = 0 then st
  else if now - st.lastProcessTime < STREAM_INTERVAL then st
  else
    let st1 := { st with lastProcessTime := now }
    let bufferCopy := st1.audioBuffer
    if (bufferCopy.length : ℚ) / (RATE : ℚ) < CHUNK_DURATION then st1
    else if calculateRMS bufferCopy < (MIN_VOLUME_THRESHOLD : ℝ) then st1
    else
      { st1 with
        chunkCount := st1.chunkCount + 1,
        uploadCalls := st1.uploadCalls + 1,
        inFlightUploads := st1.inFlightUploads + 1,
        dispatchedWindows := st1.dispatchedWindows ++ [chunkWindow bufferCopy] }

/-- A session state with a full, loud buffer and a round trip about to be
dispatched; used to exhibit two overlapping dispatches. -/
def stC1 : AppState :=
  { isStreaming := true, isRecording := true, intervalActive := true,
    audioBuffer := List.replicate 88200 ((1 : ℚ) / 2), lastProcessTime := 0,
    chunkCount := 0, detectionEvent := false, consecutiveDetections := 0,
    history := [], lastResult := none, uploadCalls := 0, inFlightUploads := 0,
    dispatchedWindows := [] }

/-! ### WAV encoder (source lines 551-584)

```js
async function createWavBlob(audioData: number[], sampleRate: number) {
  const length = audioData.length;
  const buffer = new ArrayBuffer(44 + length * 2);
  const view = new DataView(buffer);
  writeString(0, 'RIFF');
  view.setUint32(4, 36 + length * 2, true);
  writeString(8, 'WAVE');
  writeString(12, 'fmt ');
  view.setUint32(16, 16, true);
  view.setUint16(20, 1, true);
  view.setUint16(22, 1, true);
  view.setUint32(24, sampleRate, true);
  view.setUint32(28, sampleRate * 2, true);
  view.setUint16(32, 2, true);
  view.setUint16(34, 16, true);
  writeString(36, 'data');
  view.setUint32(40, length * 2, true);
  let offset = 44;
  for (let i = 0; i < length; i++) {
    const sample = Math.max(-1, Math.min(1, audioData[i]));
    view.setInt16(offset, sample * 0x7FFF, true);
    offset += 2;
  }
  return new Blob([buffer], { type: 'audio/wav' });
}
```

`setUint16`/`setUint32`/`setInt16` with `littleEndian = true` store the value
modulo 2^16 / 2^32 as little-endian bytes; `setInt16` first truncates its
argument toward zero (ECMAScript `ToIntegerOrInfinity` inside `ToInt16`). -/

def strBytes (s : String) : List ℕ := s.toList.map Char.toNat

def uint16leBytes (n : ℕ) : List ℕ := [n % 256, n / 256 % 256]

def uint32leBytes (n : ℕ) : List ℕ :=
  [n % 256, n / 256 % 256, n / 65536 % 256, n / 16777216 % 256]

/-- `Math.max(-1, Math.min(1, sample))`. -/
def clampSample (s : ℚ) : ℚ := max (-1) (min 1 s)

/-- Truncation toward zero of a rational. -/
def truncToInt (q : ℚ) : ℤ := if 0 ≤ q then ⌊q⌋ else ⌈q⌉

/-- `setInt16(_, v, true)`: the 16-bit two's-complement representation of
the truncated value, as two little-endian bytes. -/
def int16leBytes (v : ℤ) : List ℕ :=
  [(v % 65536).toNat % 256, (v % 65536).toNat / 256]

/-- The two bytes written for one input sample. -/
def sampleBytes (s : ℚ) : List ℕ :=
  int16leBytes (truncToInt (clampSample s * 32767))

/-- The 44-byte canonical header written at offsets 0-43. -/
def wavHeader (len sampleRate : ℕ) : List ℕ :=
  strBytes "RIFF" ++ uint32leBytes (36 + len * 2) ++ strBytes "WAVE" ++
  strBytes "fmt " ++ uint32leBytes 16 ++ uint16leBytes 1 ++ uint16leBytes 1 ++
  uint32leBytes sampleRate ++ uint32leBytes (sampleRate * 2) ++ uint16leBytes 2 ++
  uint16leBytes 16 ++ strBytes "data" ++ uint32leBytes (len * 2)

def createWavBlob (audioData : List ℚ) (sampleRate : ℕ) : List ℕ :=
  wavHeader audioData.length sampleRate ++ (audioData.map sampleBytes).join

/-- Little-endian 16-bit read-back at a byte offset. -/
def readUint16le (b : List ℕ) (off : ℕ) : ℕ :=
  b.getD off 0 + 256 * b.getD (off + 1) 0

/-- Little-endian 32-bit read-back at a byte offset. -/
def readUint32le (b : List ℕ) (off : ℕ) : ℕ :=
  b.getD off 0 + 256 * b.getD (off + 1) 0 + 65536 * b.getD (off + 2) 0 +
    16777216 * b.getD (off + 3) 0

/-! ### Poll-response scanning (source lines 640-666)

```js
let result = null;
for (let i = 0; i < 10; i++) {
  const pollResponse = await fetch(HF_API_URL/call/predict/eventId);
  const text = await pollResponse.text();
  const lines = text.split('\n');
  for (const line of lines) {
    if (line.startsWith('data: ')) {
      try {
        const data = JSON.parse(line.slice(6));
        if (Array.isArray(data) && data.length > 0) { result = data[0]; break; }
      } catch (e) { /- continue -/ }
    }
  }
  if (result) break;
  await new Promise(resolve => setTimeout(resolve, 200));
}
if (result) { handleStreamingResult(result, chunkId); }
```

`JSON.parse` is modelled by a hand-rolled parser for the JSON subset the
protocol uses (strings without escape sequences, decimal numbers without
exponents, booleans, null, arrays); inputs outside the subset parse to
`none`, which the scan treats exactly like a caught `JSON.parse` exception -
the line is skipped.  Poll responses are lists of characters; each fetch's
body is one entry of the `responses` list. -/

inductive JsonVal where
  | null
  | bool (b : Bool)
  | num (q : ℚ)
  | str (s : String)
  | arr (elems : List JsonVal)
deriving Repr

def POLL_ATTEMPTS : ℕ := 10

def POLL_DELAY_MS : ℕ := 200

def skipWs : List Char → List Char
  | [] => []
  | c :: cs =>
      if c = ' ' ∨ c = '\t' ∨ c = '\n' ∨ c = '\r' then skipWs cs else c :: cs

/-- Body of a JSON string literal after the opening quote: content up to the
closing quote, plus the remaining input (escape sequences not modelled). -/
def parseStrChars : List Char → Option (List Char × List Char)
  | [] => none
  | c :: cs =>
      if c = '"' then some ([], cs)
      else
        match parseStrChars cs with
        | some (content, rest) => some (c :: content, rest)
        | none => none

def parseJsonNumCore (neg : Bool) (cs1 : List Char) : Option (JsonVal × List Char) :=
  let ds := cs1.takeWhile isDigitChar
  let rest1 := cs1.dropWhile isDigitChar
  if ds.length = 0 then none
  else
    match rest1 with
    | '.' :: rest2 =>
        let fs := rest2.takeWhile isDigitChar
        let rest3 := rest2.dropWhile isDigitChar
        if fs.length = 0 then none
        else
          let q : ℚ := (digitsToNat ds : ℚ) + (digitsToNat fs : ℚ) / (10 ^ fs.length : ℚ)
          some (JsonVal.num (if neg then -q else q), rest3)
    | _ =>
        some (JsonVal.num (if neg then -(digitsToNat ds : ℚ) else (digitsToNat ds : ℚ)), rest1)

def parseJsonNum (cs : List Char) : Option (JsonVal × List Char) :=
  match cs with
  | '-' :: cs1 => parseJsonNumCore true cs1
  | _ => parseJsonNumCore false cs

mutual

def parseJsonVal : ℕ → List Char → Option (JsonVal × List Char)
  | 0, _ => none
  | fuel + 1, cs =>
      match skipWs cs with
      | '"' :: rest =>
          match parseStrChars rest with
          | some (content, rest2) => some (JsonVal.str (String.mk content), rest2)
          | none => none
      | '[' :: rest =>
          match skipWs rest with
          | ']' :: rest2 => some (JsonVal.arr [], rest2)
          | _ =>
              match parseJsonElems fuel (skipWs rest) with
              | some (elems, rest2) => some (JsonVal.arr elems, rest2)
              | none => none
      | 't' :: 'r' :: 'u' :: 'e' :: rest => some (JsonVal.bool true, rest)
      | 'f' :: 'a' :: 'l' :: 's' :: 'e' :: rest => some (JsonVal.bool false, rest)
      | 'n' :: 'u' :: 'l' :: 'l' :: rest => some (JsonVal.null, rest)
      | cs2 => parseJsonNum cs2

def parseJsonElems : ℕ → List Char → Option (List JsonVal × List Char)
  | 0, _ => none
  | fuel + 1, cs =>
      match parseJsonVal fuel cs with
      | none => none
      | some (v, rest) =>
          match skipWs rest with
          | ',' :: rest2 =>
              match parseJsonElems fuel rest2 with
              | some (vs, rest3) => some (v :: vs, rest3)
              | none => none
          | ']' :: rest2 => some ([v], rest2)
          | _ => none

end

/-- `JSON.parse` on a line payload: the whole input (modulo surrounding
whitespace) must be one value of the modelled subset. -/
def parseJson (cs : List Char) : Option JsonVal :=
  match parseJsonVal (cs.length + 1) cs with
  | some (v, rest) =>
      match skipWs rest with
      | [] => some v
      | _ => none
  | none => none

/-- `text.split('\n')`. -/
def splitOnNewline : List Char → List (List Char)
  | [] => [[]]
  | c :: rest =>
      let r := splitOnNewline rest
      if c = '\n' then [] :: r
      else
        match r with
        | [] => [[c]]
        | l :: ls => (c :: l) :: ls

/-- `line.startsWith('data: ')` and `line.slice(6)`. -/
def dataLinePayload (line : List Char) : Option (List Char) :=
  if line.take 6 = "data: ".toList then some (line.drop 6) else none

/-- One iteration of the inner `for (const line of lines)` loop body:
`some x` exactly when the line carries a JSON payload that is a non-empty
array, in which case the loop sets `result = data[0]` and breaks. -/
def lineResult (line : List Char) : Option JsonVal :=
  match dataLinePayload line with
  | some payload =>
      match parseJson payload with
      | some (JsonVal.arr (x :: _)) => some x
      | _ => none
  | none => none

/-- The inner loop over the lines of one poll response. -/
def scanLines (lines : List (List Char)) : Option JsonVal :=
  firstSome lines lineResult

/-- JavaScript truthiness of a decoded JSON value (`if (result)`). -/
def JsonVal.truthy : JsonVal → Bool
  | JsonVal.null => false
  | JsonVal.bool b => b
  | JsonVal.num q => decide (¬ q = 0)
  | JsonVal.str s => decide (¬ s = "")
  | JsonVal.arr _ => true

def optTruthy : Option JsonVal → Bool
  | some v => v.truthy
  | none => false

/-- The outer `for (let i = 0; i < 10; i++)` loop: scan each response in
turn, keeping the last scanned value, breaking as soon as it is truthy. -/
def pollLoop : List (List Char) → Option JsonVal → Option JsonVal
  | [], acc => acc
  | text :: rest, acc =>
      let acc2 :=
        match scanLines (splitOnNewline text) with
        | some v => some v
        | none => acc
      if optTruthy acc2 then acc2 else pollLoop rest acc2

/-- The value (if any) that reaches `handleStreamingResult` after the poll
loop: at most `POLL_ATTEMPTS` responses are consumed, and the final
`if (result)` gate discards a falsy value. -/
def selectedResult (responses : List (List Char)) : Option JsonVal :=
  let r := pollLoop (responses.take POLL_ATTEMPTS) none
  if optTruthy r then r else none

/-- Completion of one chunk round trip (the tail of `processAudioChunk`,
source lines 640-672).  A truthy string result is handed to
`handleStreamingResult`; a truthy non-string result makes `result.match`
throw, which the surrounding `try/catch` absorbs with no state change; a
falsy or missing result is dropped.  In every case the round trip is no
longer in flight. -/
def onChunkCompletion (responses : List (List Char)) (chunkId now : ℕ)
    (st : AppState) : AppState × List Emission :=
  let st1 := { st with inFlightUploads := st.inFlightUploads - 1 }
  match selectedResult responses with
  | some (JsonVal.str s) => handleStreamingResult s chunkId now st1
  | some _ => (st1, [])
  | none => (st1, [])

/-! ### `stopRecording` (source lines 815-856)

```js
async function stopRecording() {
  if (!isRecording) return;
  isStreamingRef.current = false;
  setIsRecording(false);
  if (streamingIntervalRef.current) {
    clearInterval(streamingIntervalRef.current);
    streamingIntervalRef.current = null;
  }
  ...
}
```

Note that nothing here (nor in `processAudioChunk`) marks the in-flight
round trip as cancelled. -/

def stopRecording (st : AppState) : AppState :=
  if st.isRecording = false then st
  else
    { st with isStreaming := false, isRecording := false, intervalActive := false }

/-- A session state with one round trip in flight (chunk 1 dispatched,
completion pending). -/
def stC2 : AppState :=
  { isStreaming := true, isRecording := true, intervalActive := true,
    audioBuffer := [], lastProcessTime := 600, chunkCount := 1,
    detectionEvent := false, consecutiveDetections := 0, history := [],
    lastResult := none, uploadCalls := 1, inFlightUploads := 1,
    dispatchedWindows := [] }

/-- A poll response that arrives after the session was stopped. -/
def lateResponse : List Char :=
  "data: [\"AI Generated: 82.5% | Real Voice: 17.5%\"]".toList

/-! ### Poll-selection refinement (claim C9) -/

/-- The selection rule as the spec words it (refinement comparison for C9):
the first `data: `-prefixed line whose JSON payload is an array whose first
element is a non-empty string. -/
def lineResultSpec (line : List Char) : Option JsonVal :=
  match dataLinePayload line with
  | some payload =>
      match parseJson payload with
      | some (JsonVal.arr (JsonVal.str s :: _)) =>
          if s = "" then none else some (JsonVal.str s)
      | _ => none
  | none => none

/-- A poll response whose first data line carries `[""]` and whose second
carries `["hit"]`. -/
def respC9 : List Char := "data: [\"\"]\ndata: [\"hit\"]".toList

/-- A session state with chunk 2's round trip in flight. -/
def stC9 : AppState :=
  { isStreaming := true, isRecording := true, intervalActive := true,
    audioBuffer := [], lastProcessTime := 0, chunkCount := 2,
    detectionEvent := false, consecutiveDetections := 0, history := [],
    lastResult := none, uploadCalls := 2, inFlightUploads := 1,
    dispatchedWindows := [] }

/-! ### Theorems -/

lemma foldl_sq_eq_sum (l : List ℚ) (a : ℚ) :
    l.foldl (fun acc val => acc + val * val) a = a + (l.map (fun v => v * v)).sum := by
  induction l generalizing a with
  | nil => simp
  | cons x xs ih => simp [ih, add_assoc]

/-! ### Step lemmas for `handleStreamingResult` -/

lemma handleStreamingResult_isAI_idle (s : String) (c n : ℕ) (st : AppState)
    (h : 30 < parseAiPercent s) (hev : st.detectionEvent = false) :
    handleStreamingResult s c n st =
      ({ st with
          lastResult := some ⟨true, parseAiPercent s, parseRealPercent s, n, c⟩,
          history := pushHistory ⟨true, parseAiPercent s, parseRealPercent s, n, c⟩ st.history,
          consecutiveDetections := st.consecutiveDetections + 1,
          detectionEvent := true },
        [Emission.risingAlert c (parseAiPercent s)]) := by
  have hAI : streamingIsAI (parseAiPercent s) = true := by simp [streamingIsAI, h]
  simp [handleStreamingResult, hAI, hev]

lemma handleStreamingResult_isAI_active (s : String) (c n : ℕ) (st : AppState)
    (h : 30 < parseAiPercent s) (hev : st.detectionEvent = true) :
    handleStreamingResult s c n st =
      ({ st with
          lastResult := some ⟨true, parseAiPercent s, parseRealPercent s, n, c⟩,
          history := pushHistory ⟨true, parseAiPercent s, parseRealPercent s, n, c⟩ st.history,
          consecutiveDetections := st.consecutiveDetections + 1 },
        []) := by
  have hAI : streamingIsAI (parseAiPercent s) = true := by simp [streamingIsAI, h]
  simp [handleStreamingResult, hAI, hev]

lemma handleStreamingResult_notAI_active (s : String) (c n : ℕ) (st : AppState)
    (h : parseAiPercent s ≤ 30) (hev : st.detectionEvent = true)
    (hc : 0 < st.consecutiveDetections) :
    handleStreamingResult s c n st =
      ({ st with
          lastResult := some ⟨false, parseAiPercent s, parseRealPercent s, n, c⟩,
          history := pushHistory ⟨false, parseAiPercent s, parseRealPercent s, n, c⟩ st.history,
          detectionEvent := false,
          consecutiveDetections := 0 },
        [Emission.fallingEdge c]) := by
  have hAI : streamingIsAI (parseAiPercent s) = false := by
    simp [streamingIsAI, not_lt.mpr h]
  simp [handleStreamingResult, hAI, hev, hc]

/-! ### Concrete parser evaluations

`decide` cannot normalise `ℚ` arithmetic in the kernel, so concrete parses
are split into a char-level search (decidable) and a `norm_num` step for the
rational value. -/

lemma searchAi_concrete :
    searchPattern aiLabel "AI Generated: 82.5% | Real Voice: 17.5%".toList =
      some ['8', '2', '.', '5'] := by decide

lemma searchReal_concrete :
    searchPattern realLabel "AI Generated: 82.5% | Real Voice: 17.5%".toList =
      some ['1', '7', '.', '5'] := by decide

lemma parseCapture_825 : parseCapture ['8', '2', '.', '5'] = 165 / 2 := by
  have h1 : List.takeWhile isDigitChar ['8', '2', '.', '5'] = ['8', '2'] := by decide
  have h2 : List.dropWhile isDigitChar ['8', '2', '.', '5'] = ['.', '5'] := by decide
  have h3 : digitsToNat ['8', '2'] = 82 := by decide
  have h4 : digitsToNat ['5'] = 5 := by decide
  simp only [parseCapture, h1, h2, h3, h4]
  norm_num

lemma parseCapture_175 : parseCapture ['1', '7', '.', '5'] = 35 / 2 := by
  have h1 : List.takeWhile isDigitChar ['1', '7', '.', '5'] = ['1', '7'] := by decide
  have h2 : List.dropWhile isDigitChar ['1', '7', '.', '5'] = ['.', '5'] := by decide
  have h3 : digitsToNat ['1', '7'] = 17 := by decide
  have h4 : digitsToNat ['5'] = 5 := by decide
  simp only [parseCapture, h1, h2, h3, h4]
  norm_num

lemma parseAi_concrete :
    parseAiPercent "AI Generated: 82.5% | Real Voice: 17.5%" = 165 / 2 := by
  unfold parseAiPercent
  rw [searchAi_concrete]
  exact parseCapture_825

lemma parseReal_concrete :
    parseRealPercent "AI Generated: 82.5% | Real Voice: 17.5%" = 35 / 2 := by
  unfold parseRealPercent
  rw [searchReal_concrete]
  exact parseCapture_175

lemma parseAi_concrete_gt : 30 < parseAiPercent "AI Generated: 82.5% | Real Voice: 17.5%" := by
  rw [parseAi_concrete]; norm_num

lemma parseAi_realOnly_concrete : parseAiPercent "Real Voice: 99%" = 0 := by
  have h : searchPattern aiLabel "Real Voice: 99%".toList = none := by decide
  unfold parseAiPercent
  rw [h]

/-- Claim C3: starting from `{active: false, consecutiveCount: 0}`, the isAI
sequence true, true, false produces exactly one rising-edge alert and exactly
one falling-edge event; and in general, while an alert is active, a further
AI-positive result emits no rising edge. -/
theorem hysteresis_spec :
    (∀ (s1 s2 s3 : String) (c1 c2 c3 n1 n2 n3 : ℕ) (st : AppState)
      (hev : st.detectionEvent = false) (hc : st.consecutiveDetections = 0)
      (h1 : 30 < parseAiPercent s1) (h2 : 30 < parseAiPercent s2)
      (h3 : parseAiPercent s3 ≤ 30),
      (List.filter Emission.isRising
        ((handleStreamingResult s1 c1 n1 st).2 ++
         (handleStreamingResult s2 c2 n2 (handleStreamingResult s1 c1 n1 st).1).2 ++
         (handleStreamingResult s3 c3 n3
           (handleStreamingResult s2 c2 n2
             (handleStreamingResult s1 c1 n1 st).1).1).2)).length = 1 ∧
      (List.filter Emission.isFalling
        ((handleStreamingResult s1 c1 n1 st).2 ++
         (handleStreamingResult s2 c2 n2 (handleStreamingResult s1 c1 n1 st).1).2 ++
         (handleStreamingResult s3 c3 n3
           (handleStreamingResult s2 c2 n2
             (handleStreamingResult s1 c1 n1 st).1).1).2)).length = 1) ∧
    (∀ (s : String) (c n : ℕ) (st : AppState),
      st.detectionEvent = true → 30 < parseAiPercent s →
      (List.filter Emission.isRising (handleStreamingResult s c n st).2).length = 0) := by
  constructor
  · intro s1 s2 s3 c1 c2 c3 n1 n2 n3 st hev hc h1 h2 h3
    rw [handleStreamingResult_isAI_idle s1 c1 n1 st h1 hev]
    rw [handleStreamingResult_isAI_active s2 c2 n2 _ h2 rfl]
    rw [handleStreamingResult_notAI_active s3 c3 n3 _ h3 rfl (by simp)]
    simp [Emission.isRising, Emission.isFalling]
  · intro s c n st hev h
    rw [handleStreamingResult_isAI_active s c n st h hev]
    simp

/-- Witness for C3: the hysteresis run on the concrete classifier outputs
`"AI Generated: 82.5% | Real Voice: 17.5%"` (twice) and
`"Real Voice: 99%"`, from the concrete initial state. -/
theorem hysteresis_spec_witness :
    stTestHyst.detectionEvent = false ∧ stTestHyst.consecutiveDetections = 0 ∧
    30 < parseAiPercent "AI Generated: 82.5% | Real Voice: 17.5%" ∧
    parseAiPercent "Real Voice: 99%" ≤ 30 ∧
    (List.filter Emission.isRising
      ((handleStreamingResult "AI Generated: 82.5% | Real Voice: 17.5%" 1 10 stTestHyst).2 ++
       (handleStreamingResult "AI Generated: 82.5% | Real Voice: 17.5%" 2 20
         (handleStreamingResult "AI Generated: 82.5% | Real Voice: 17.5%" 1 10 stTestHyst).1).2 ++
       (handleStreamingResult "Real Voice: 99%" 3 30
         (handleStreamingResult "AI Generated: 82.5% | Real Voice: 17.5%" 2 20
           (handleStreamingResult "AI Generated: 82.5% | Real Voice: 17.5%" 1 10 stTestHyst).1).1).2)).length = 1 ∧
    (List.filter Emission.isFalling
      ((handleStreamingResult "AI Generated: 82.5% | Real Voice: 17.5%" 1 10 stTestHyst).2 ++
       (handleStreamingResult "AI Generated: 82.5% | Real Voice: 17.5%" 2 20
         (handleStreamingResult "AI Generated: 82.5% | Real Voice: 17.5%" 1 10 stTestHyst).1).2 ++
       (handleStreamingResult "Real Voice: 99%" 3 30
         (handleStreamingResult "AI Generated: 82.5% | Real Voice: 17.5%" 2 20
           (handleStreamingResult "AI Generated: 82.5% | Real Voice: 17.5%" 1 10 stTestHyst).1).1).2)).length = 1 := by
  have h1 := parseAi_concrete_gt
  have h3 : parseAiPercent "Real Voice: 99%" ≤ 30 := by
    rw [parseAi_realOnly_concrete]; norm_num
  have main := hysteresis_spec.1 "AI Generated: 82.5% | Real Voice: 17.5%"
    "AI Generated: 82.5% | Real Voice: 17.5%" "Real Voice: 99%"
    1 2 3 10 20 30 stTestHyst rfl rfl h1 h1 h3
  exact ⟨rfl, rfl, h1, h3, main.1, main.2⟩

/-- Claim C5: the score parser yields `82.5` / `17.5` on the documented
concrete input, and a missing match yields `0` (the parse never fails). -/
theorem scoreParser_spec :
    parseAiPercent "AI Generated: 82.5% | Real Voice: 17.5%" = 165 / 2 ∧
    parseRealPercent "AI Generated: 82.5% | Real Voice: 17.5%" = 35 / 2 ∧
    (∀ s : String, searchPattern aiLabel s.toList = none → parseAiPercent s = 0) ∧
    (∀ s : String, searchPattern realLabel s.toList = none → parseRealPercent s = 0) := by
  refine ⟨parseAi_concrete, parseReal_concrete, ?_, ?_⟩
  · intro s h
    unfold parseAiPercent
    rw [h]
  · intro s h
    unfold parseRealPercent
    rw [h]

/-- Witness for C5: a concrete input with no label match parses to zero. -/
theorem scoreParser_spec_witness :
    searchPattern aiLabel "no scores here".toList = none ∧
    parseAiPercent "no scores here" = 0 :=
  ⟨by decide, scoreParser_spec.2.2.1 "no scores here" (by decide)⟩

/-- Claim C6: `isAI` is a strict comparison against the threshold (a score
exactly at the threshold does not trigger); the streaming flow uses 30, the
single-request flow uses 50, and each flow's produced `DetectionResult`
carries exactly that comparison. -/
theorem threshold_spec :
    (∀ p : ℚ, streamingIsAI p = true ↔ 30 < p) ∧
    streamingIsAI 30 = false ∧
    (∀ p : ℚ, singleIsAI p = true ↔ 50 < p) ∧
    singleIsAI 50 = false ∧
    (∀ (s : String) (c n : ℕ) (st : AppState),
      (handleStreamingResult s c n st).1.lastResult =
        some ⟨streamingIsAI (parseAiPercent s), parseAiPercent s,
          parseRealPercent s, n, c⟩) ∧
    (∀ (s : String) (n : ℕ) (prev : List DetectionResult),
      (processAudioResult s n prev).1 =
        ⟨singleIsAI (parseAiPercent s), parseAiPercent s,
          parseRealPercent s, n, 0⟩) := by
  refine ⟨?_, ?_, ?_, ?_, ?_, ?_⟩
  · intro p; simp [streamingIsAI]
  · simp [streamingIsAI]
  · intro p; simp [singleIsAI]
  · simp [singleIsAI]
  · intro s c n st
    simp only [handleStreamingResult]
    split
    · split <;> rfl
    · split <;> rfl
  · intro s n prev; rfl

lemma samplesNeeded_eq : samplesNeeded = 88200 := by
  have h : CHUNK_DURATION * (RATE : ℚ) = (88200 : ℚ) := by
    norm_num [CHUNK_DURATION, RATE]
  rw [samplesNeeded, h]
  rfl

/-- A tick on which every gate passes performs exactly one dispatch. -/
lemma processStreamingChunk_dispatch (now : ℕ) (st : AppState)
    (hstream : st.isStreaming = true) (hbuf : st.audioBuffer.length ≠ 0)
    (htime : ¬ (now - st.lastProcessTime < STREAM_INTERVAL))
    (hdur : ¬ ((st.audioBuffer.length : ℚ) / (RATE : ℚ) < CHUNK_DURATION))
    (hvol : ¬ (calculateRMS st.audioBuffer < (MIN_VOLUME_THRESHOLD : ℝ))) :
    processStreamingChunk now st =
      { st with
          lastProcessTime := now,
          chunkCount := st.chunkCount + 1,
          uploadCalls := st.uploadCalls + 1,
          inFlightUploads := st.inFlightUploads + 1,
          dispatchedWindows := st.dispatchedWindows ++ [chunkWindow st.audioBuffer] } := by
  simp [processStreamingChunk, hstream, hbuf, htime, hdur, hvol]

lemma calculateRMS_replicate_half :
    calculateRMS (List.replicate 88200 ((1 : ℚ) / 2)) = 1 / 2 := by
  have hfold : (List.replicate 88200 ((1 : ℚ) / 2)).foldl
      (fun acc val => acc + val * val) 0 = 22050 := by
    rw [foldl_sq_eq_sum, List.map_replicate, List.sum_replicate, nsmul_eq_mul]
    norm_num
  simp only [calculateRMS, List.length_replicate, hfold]
  rw [if_neg (by norm_num)]
  have h14 : (((22050 : ℚ) : ℝ)) / ((88200 : ℕ) : ℝ) = ((1 : ℝ) / 2) ^ 2 := by
    push_cast
    norm_num
  rw [h14, Real.sqrt_sq (by norm_num)]

/-- Counterexample to claim C1: two scheduler ticks (at 600ms and 1200ms) with
no round-trip completion in between each perform a dispatch: after the second
tick two upload calls have occurred and two round trips are simultaneously in
flight, refuting at-most-one-in-flight. -/
theorem oneInFlight_counterexample :
    stC1.inFlightUploads = 0 ∧
    (processStreamingChunk 1200 (processStreamingChunk 600 stC1)).uploadCalls = 2 ∧
    (processStreamingChunk 1200 (processStreamingChunk 600 stC1)).inFlightUploads = 2 := by
  have hvol : ¬ (calculateRMS stC1.audioBuffer < (MIN_VOLUME_THRESHOLD : ℝ)) := by
    show ¬ (calculateRMS (List.replicate 88200 ((1 : ℚ) / 2)) < (MIN_VOLUME_THRESHOLD : ℝ))
    rw [calculateRMS_replicate_half]
    norm_num [MIN_VOLUME_THRESHOLD]
  have hbuf : stC1.audioBuffer.length ≠ 0 := by
    show (List.replicate 88200 ((1 : ℚ) / 2)).length ≠ 0
    rw [List.length_replicate]
    norm_num
  have hdur : ¬ ((stC1.audioBuffer.length : ℚ) / (RATE : ℚ) < CHUNK_DURATION) := by
    simp only [stC1, List.length_replicate]
    norm_num [RATE, CHUNK_DURATION]
  have h1 := processStreamingChunk_dispatch 600 stC1 rfl hbuf
    (by show ¬ (600 - 0 < STREAM_INTERVAL); rw [STREAM_INTERVAL]; norm_num) hdur hvol
  have h2 := processStreamingChunk_dispatch 1200 (processStreamingChunk 600 stC1)
    (by rw [h1]; rfl) (by rw [h1]; exact hbuf)
    (by rw [h1]; show ¬ (1200 - 600 < STREAM_INTERVAL); rw [STREAM_INTERVAL]; norm_num)
    (by rw [h1]; exact hdur) (by rw [h1]; exact hvol)
  refine ⟨rfl, ?_, ?_⟩ <;> rw [h2, h1] <;> rfl

/-- Claim C1 (amended): the scheduler's only dispatch guard is temporal - a
tick strictly less than `STREAM_INTERVAL` milliseconds after the last
dispatch attempt is a no-op.  There is no in-flight guard, so a later tick
dispatches again even while the previous round trip is outstanding. -/
theorem tickGuard_amended (now : ℕ) (st : AppState)
    (h : now - st.lastProcessTime < STREAM_INTERVAL) :
    processStreamingChunk now st = st := by
  unfold processStreamingChunk
  by_cases h0 : st.isStreaming = false ∨ st.audioBuffer.length = 0
  · rw [if_pos h0]
  · rw [if_neg h0, if_pos h]

/-- Witness for the amended C1: a tick 100ms into the session is a no-op. -/
theorem tickGuard_amended_witness :
    (100 - stC1.lastProcessTime < STREAM_INTERVAL) ∧
    processStreamingChunk 100 stC1 = stC1 :=
  ⟨by decide, tickGuard_amended 100 stC1 (by decide)⟩

/-- Claim C8: for every buffer that passes the duration gate, the dispatched
chunk window is a contiguous slice of exactly `ceil(CHUNK_DURATION * RATE)`
samples taken from the tail of the buffer. -/
theorem chunkWindow_spec (buffer : List ℚ)
    (hgate : ¬ ((buffer.length : ℚ) / (RATE : ℚ) < CHUNK_DURATION)) :
    (chunkWindow buffer).length = (⌈CHUNK_DURATION * (RATE : ℚ)⌉).toNat ∧
    buffer.take (buffer.length - samplesNeeded) ++ chunkWindow buffer = buffer := by
  have hq : CHUNK_DURATION * (RATE : ℚ) ≤ (buffer.length : ℚ) := by
    have h := not_lt.mp hgate
    rw [le_div_iff₀ (by norm_num [RATE] : (0 : ℚ) < (RATE : ℚ))] at h
    exact h
  have hlen : 88200 ≤ buffer.length := by
    have h88 : (88200 : ℚ) ≤ (buffer.length : ℚ) := by
      calc (88200 : ℚ) = CHUNK_DURATION * (RATE : ℚ) := by norm_num [CHUNK_DURATION, RATE]
        _ ≤ (buffer.length : ℚ) := hq
    exact_mod_cast h88
  have hceil : (⌈CHUNK_DURATION * (RATE : ℚ)⌉).toNat = 88200 := by
    have h : CHUNK_DURATION * (RATE : ℚ) = (88200 : ℚ) := by
      norm_num [CHUNK_DURATION, RATE]
    rw [h]
    rfl
  constructor
  · rw [chunkWindow, List.length_drop, hceil, samplesNeeded_eq]
    omega
  · exact List.take_append_drop _ buffer

/-- Witness for C8: the chunk window of a concrete 88200-sample buffer. -/
theorem chunkWindow_spec_witness :
    (¬ (((List.replicate 88200 ((0 : ℚ))).length : ℚ) / (RATE : ℚ) < CHUNK_DURATION)) ∧
    (chunkWindow (List.replicate 88200 ((0 : ℚ)))).length =
      (⌈CHUNK_DURATION * (RATE : ℚ)⌉).toNat ∧
    (List.replicate 88200 ((0 : ℚ))).take
        ((List.replicate 88200 ((0 : ℚ))).length - samplesNeeded) ++
      chunkWindow (List.replicate 88200 ((0 : ℚ))) = List.replicate 88200 ((0 : ℚ)) := by
  have hgate : ¬ (((List.replicate 88200 ((0 : ℚ))).length : ℚ) / (RATE : ℚ) < CHUNK_DURATION) := by
    simp only [List.length_replicate]
    norm_num [RATE, CHUNK_DURATION]
  exact ⟨hgate, (chunkWindow_spec _ hgate).1, (chunkWindow_spec _ hgate).2⟩

lemma wavHeader_cons (len sampleRate : ℕ) :
    wavHeader len sampleRate =
      82 :: 73 :: 70 :: 70 ::
      ((36 + len * 2) % 256) :: ((36 + len * 2) / 256 % 256) ::
      ((36 + len * 2) / 65536 % 256) :: ((36 + len * 2) / 16777216 % 256) ::
      87 :: 65 :: 86 :: 69 :: 102 :: 109 :: 116 :: 32 ::
      16 :: 0 :: 0 :: 0 :: 1 :: 0 :: 1 :: 0 ::
      (sampleRate % 256) :: (sampleRate / 256 % 256) ::
      (sampleRate / 65536 % 256) :: (sampleRate / 16777216 % 256) ::
      ((sampleRate * 2) % 256) :: ((sampleRate * 2) / 256 % 256) ::
      ((sampleRate * 2) / 65536 % 256) :: ((sampleRate * 2) / 16777216 % 256) ::
      2 :: 0 :: 16 :: 0 :: 100 :: 97 :: 116 :: 97 ::
      ((len * 2) % 256) :: ((len * 2) / 256 % 256) ::
      ((len * 2) / 65536 % 256) :: [(len * 2) / 16777216 % 256] := rfl

lemma wavHeader_length (len sampleRate : ℕ) :
    (wavHeader len sampleRate).length = 44 := by
  rw [wavHeader_cons]
  rfl

lemma join_sampleBytes_length (l : List ℚ) :
    ((l.map sampleBytes).join).length = 2 * l.length := by
  induction l with
  | nil => rfl
  | cons x xs ih =>
      simp only [List.map_cons, List.join_cons, List.length_append, ih,
        List.length_cons]
      show 2 + 2 * xs.length = 2 * (xs.length + 1)
      ring

lemma join_sampleBytes_get (l : List ℚ) (i : ℕ) (h : i < l.length) :
    (((l.map sampleBytes).join).drop (2 * i)).take 2 = sampleBytes (l.get ⟨i, h⟩) := by
  induction l generalizing i with
  | nil => simp at h
  | cons x xs ih =>
      cases i with
      | zero => rfl
      | succ j =>
          have hj : j < xs.length := by simpa using h
          have hsplit : (2 : ℕ) * (j + 1) = (sampleBytes x).length + 2 * j := by
            show 2 * (j + 1) = 2 + 2 * j
            ring
          calc ((((x :: xs).map sampleBytes).join).drop (2 * (j + 1))).take 2
              = ((sampleBytes x ++ ((xs.map sampleBytes).join)).drop
                  ((sampleBytes x).length + 2 * j)).take 2 := by rw [hsplit]; rfl
            _ = (((xs.map sampleBytes).join).drop (2 * j)).take 2 := by
                  rw [List.drop_append]
            _ = sampleBytes (xs.get ⟨j, hj⟩) := ih j hj
            _ = sampleBytes ((x :: xs).get ⟨j + 1, h⟩) := rfl

/-- Claim C4: for every window of `N > 0` samples and sample rate `R < 2^32`,
the encoder yields `44 + 2N` bytes; the header parses back as RIFF/WAVE, PCM
format tag 1, one channel, 16 bits per sample, little-endian sample rate `R`;
and the payload is exactly the `N` 16-bit little-endian samples, each clamped
to `[-1,1]`, scaled by `32767` and truncated. -/
theorem createWavBlob_spec (audioData : List ℚ) (sampleRate : ℕ)
    (hN : 0 < audioData.length) (hR : sampleRate < 4294967296) :
    (createWavBlob audioData sampleRate).length = 44 + 2 * audioData.length ∧
    (createWavBlob audioData sampleRate).take 4 = strBytes "RIFF" ∧
    ((createWavBlob audioData sampleRate).drop 8).take 4 = strBytes "WAVE" ∧
    readUint16le (createWavBlob audioData sampleRate) 20 = 1 ∧
    readUint16le (createWavBlob audioData sampleRate) 22 = 1 ∧
    readUint32le (createWavBlob audioData sampleRate) 24 = sampleRate ∧
    readUint16le (createWavBlob audioData sampleRate) 34 = 16 ∧
    (createWavBlob audioData sampleRate).drop 44 = (audioData.map sampleBytes).join ∧
    ∀ i (h : i < audioData.length),
      (((createWavBlob audioData sampleRate).drop (44 + 2 * i)).take 2) =
        sampleBytes (audioData.get ⟨i, h⟩) := by
  have hdrop44 : (createWavBlob audioData sampleRate).drop 44 =
      (audioData.map sampleBytes).join := by
    rw [createWavBlob, ← wavHeader_length audioData.length sampleRate,
      List.drop_left]
  refine ⟨?_, ?_, ?_, ?_, ?_, ?_, ?_, hdrop44, ?_⟩
  · rw [createWavBlob, List.length_append, wavHeader_length,
      join_sampleBytes_length]
  · rw [createWavBlob, wavHeader_cons]
    rfl
  · rw [createWavBlob, wavHeader_cons]
    rfl
  · rw [createWavBlob, wavHeader_cons]
    rfl
  · rw [createWavBlob, wavHeader_cons]
    rfl
  · rw [createWavBlob, wavHeader_cons]
    show sampleRate % 256 + 256 * (sampleRate / 256 % 256) +
      65536 * (sampleRate / 65536 % 256) +
      16777216 * (sampleRate / 16777216 % 256) = sampleRate
    omega
  · rw [createWavBlob, wavHeader_cons]
    rfl
  · intro i h
    rw [← List.drop_drop, hdrop44, join_sampleBytes_get audioData i h]

/-- Witness for C4: the encoder applied to the concrete one-sample window
`[1/2]` at rate 22050. -/
theorem createWavBlob_spec_witness :
    0 < ([(1 : ℚ) / 2]).length ∧ 22050 < 4294967296 ∧
    (createWavBlob [(1 : ℚ) / 2] 22050).length = 44 + 2 * ([(1 : ℚ) / 2]).length ∧
    readUint16le (createWavBlob [(1 : ℚ) / 2] 22050) 20 = 1 ∧
    readUint32le (createWavBlob [(1 : ℚ) / 2] 22050) 24 = 22050 := by
  have h := createWavBlob_spec [(1 : ℚ) / 2] 22050 (by norm_num) (by norm_num)
  exact ⟨by norm_num, by norm_num, h.1, h.2.2.2.1, h.2.2.2.2.2.1⟩

/-- Counterexample to claim C2: stop the session while chunk 1's poll is
outstanding; when the poll completes, the completion path still runs
`handleStreamingResult`, so a `DetectionResult` is produced after stop and
applied to `lastResult`, the history ledger and the detection state machine
(even emitting a rising-edge alert) - the late result is not discarded. -/
theorem stopCancellation_counterexample :
    (stopRecording stC2).isStreaming = false ∧
    (stopRecording stC2).intervalActive = false ∧
    (onChunkCompletion [lateResponse] 1 999 (stopRecording stC2)).1.lastResult =
      some ⟨true, 165 / 2, 35 / 2, 999, 1⟩ ∧
    (onChunkCompletion [lateResponse] 1 999 (stopRecording stC2)).1.history =
      [⟨true, 165 / 2, 35 / 2, 999, 1⟩] ∧
    (onChunkCompletion [lateResponse] 1 999 (stopRecording stC2)).1.detectionEvent = true ∧
    (onChunkCompletion [lateResponse] 1 999 (stopRecording stC2)).2 =
      [Emission.risingAlert 1 (165 / 2)] := by
  have hcomp : onChunkCompletion [lateResponse] 1 999 (stopRecording stC2) =
      handleStreamingResult "AI Generated: 82.5% | Real Voice: 17.5%" 1 999
        { stopRecording stC2 with
            inFlightUploads := (stopRecording stC2).inFlightUploads - 1 } := rfl
  rw [hcomp,
    handleStreamingResult_isAI_idle _ 1 999 _ parseAi_concrete_gt rfl,
    parseAi_concrete, parseReal_concrete]
  exact ⟨rfl, rfl, rfl, rfl, rfl, rfl⟩

/-- Claim C2 (amended): `stopRecording` (from a recording session) stops the
timer and streaming flags, so later ticks dispatch nothing; but an
outstanding round trip is not cancelled: when it completes with a truthy
string result, `handleStreamingResult` still runs against the stopped state,
regardless of `isStreaming`. -/
theorem stopRecording_amended :
    (∀ st : AppState, st.isRecording = true →
      (stopRecording st).isStreaming = false ∧
      (stopRecording st).intervalActive = false ∧
      ∀ now : ℕ, processStreamingChunk now (stopRecording st) = stopRecording st) ∧
    (∀ (responses : List (List Char)) (c n : ℕ) (st : AppState) (s : String),
      selectedResult responses = some (JsonVal.str s) →
      onChunkCompletion responses c n st =
        handleStreamingResult s c n
          { st with inFlightUploads := st.inFlightUploads - 1 }) := by
  constructor
  · intro st h
    have hne : ¬ (st.isRecording = false) := by simp [h]
    have hs : stopRecording st =
        { st with
            isStreaming := false,
            isRecording := false,
            intervalActive := false } := by
      unfold stopRecording
      rw [if_neg hne]
    have hcond : (stopRecording st).isStreaming = false ∨
        (stopRecording st).audioBuffer.length = 0 := Or.inl (by rw [hs])
    refine ⟨by rw [hs], by rw [hs], ?_⟩
    intro now
    unfold processStreamingChunk
    rw [if_pos hcond]
  · intro responses c n st s h
    unfold onChunkCompletion
    rw [h]

/-- Witness for the amended C2: the concrete stopped session and late poll
response. -/
theorem stopRecording_amended_witness :
    stC2.isRecording = true ∧
    selectedResult [lateResponse] =
      some (JsonVal.str "AI Generated: 82.5% | Real Voice: 17.5%") ∧
    (stopRecording stC2).isStreaming = false ∧
    onChunkCompletion [lateResponse] 3 4 stC2 =
      handleStreamingResult "AI Generated: 82.5% | Real Voice: 17.5%" 3 4
        { stC2 with inFlightUploads := stC2.inFlightUploads - 1 } :=
  ⟨rfl, rfl, (stopRecording_amended.1 stC2 rfl).1,
    stopRecording_amended.2 [lateResponse] 3 4 stC2 _ rfl⟩

/-- Counterexample to claim C9: on `respC9`, the spec's selection rule picks
`"hit"` (the first line whose first element is a non-empty string), but the
code's inner loop stops at the *first non-empty-array* line, takes its empty
string, finds it falsy, skips the rest of the response, and ends up dropping
the chunk entirely. -/
theorem pollSelection_counterexample :
    firstSome (splitOnNewline respC9) lineResultSpec = some (JsonVal.str "hit") ∧
    scanLines (splitOnNewline respC9) = some (JsonVal.str "") ∧
    selectedResult [respC9] = none := ⟨rfl, rfl, rfl⟩

/-- Claim C9 (amended): the value selected from a poll response is the first
`data: `-prefixed line whose JSON payload is a *non-empty array* (its first
element taken regardless of type or emptiness); lines that are malformed, or
not arrays, or empty arrays are skipped rather than aborting; a falsy
selection is discarded by the final truthiness gate and polling retries;
polling is bounded at `POLL_ATTEMPTS = 10` responses with a fixed
`POLL_DELAY_MS = 200` delay; and with no truthy result the chunk is dropped
with no state change beyond clearing the in-flight marker - in particular
without producing a `DetectionResult` and without ending the session. -/
theorem pollSelection_amended :
    POLL_ATTEMPTS = 10 ∧ POLL_DELAY_MS = 200 ∧
    (∀ responses : List (List Char),
      selectedResult responses = selectedResult (responses.take POLL_ATTEMPTS)) ∧
    (∀ (l : List Char) (ls : List (List Char)),
      lineResult l = none → scanLines (l :: ls) = scanLines ls) ∧
    (∀ (l : List Char) (ls : List (List Char)) (v : JsonVal),
      lineResult l = some v → scanLines (l :: ls) = some v) ∧
    (∀ (responses : List (List Char)) (c n : ℕ) (st : AppState),
      selectedResult responses = none →
      onChunkCompletion responses c n st =
        ({ st with inFlightUploads := st.inFlightUploads - 1 }, [])) := by
  refine ⟨rfl, rfl, ?_, ?_, ?_, ?_⟩
  · intro responses
    unfold selectedResult
    rw [List.take_take, min_self]
  · intro l ls h
    simp only [scanLines, firstSome, h]
  · intro l ls v h
    simp only [scanLines, firstSome, h]
  · intro responses c n st h
    unfold onChunkCompletion
    rw [h]

/-- Witness for the amended C9: concrete skipped line and concrete timed-out
poll. -/
theorem pollSelection_amended_witness :
    lineResult "event: ping".toList = none ∧
    scanLines ["event: ping".toList, "data: [\"ok\"]".toList] =
      scanLines ["data: [\"ok\"]".toList] ∧
    selectedResult ["event: ping".toList] = none ∧
    onChunkCompletion ["event: ping".toList] 5 7 stC9 =
      ({ stC9 with inFlightUploads := stC9.inFlightUploads - 1 }, []) :=
  ⟨rfl, pollSelection_amended.2.2.2.1 _ _ rfl, rfl,
    pollSelection_amended.2.2.2.2.2 _ 5 7 stC9 rfl⟩

/-- Claim C10: the RMS volume computation is total: it returns `0` on the empty
sample list (instead of dividing by zero) and `sqrt(mean(sample^2))` on every
non-empty list, so the volume gate never fails on any input. -/
theorem calculateRMS_total :
    calculateRMS [] = 0 ∧
    ∀ l : List ℚ, l ≠ [] →
      calculateRMS l =
        Real.sqrt ((((l.map (fun v => v * v)).sum : ℚ) : ℝ) / (l.length : ℝ)) := by
  constructor
  · simp [calculateRMS]
  · intro l hl
    have hlen : l.length ≠ 0 := by simpa using hl
    simp [calculateRMS, hlen, foldl_sq_eq_sum]

/-- Witness for C10: `calculateRMS` evaluated on the concrete one-element list
`[1]` via the theorem. -/
theorem calculateRMS_total_witness :
    ([(1 : ℚ)] ≠ []) ∧ calculateRMS [(1 : ℚ)] = Real.sqrt 1 := by
  refine ⟨by simp, ?_⟩
  have h := calculateRMS_total.2 [(1 : ℚ)] (by simp)
  simpa using h

/-- Claim C7: the history ledger never holds more than its capacity 20; each
push prepends the new result (most-recent-first ordering), and a push onto a
full ledger evicts exactly the oldest (last) entry.  The fourth conjunct shows
the bound is preserved along any sequence of pushes. -/
theorem pushHistory_spec :
    (∀ r prev, (pushHistory r prev).length ≤ 20) ∧
    (∀ r prev, pushHistory r prev = r :: prev.take 19) ∧
    (∀ r prev, prev.length = 20 → pushHistory r prev = r :: prev.dropLast) ∧
    (∀ rs : List DetectionResult, ∀ h0 : List DetectionResult, h0.length ≤ 20 →
      (rs.foldl (fun h r => pushHistory r h) h0).length ≤ 20) := by
  refine ⟨?_, ?_, ?_, ?_⟩
  · intro r prev
    simp [pushHistory]
  · intro r prev
    simp [pushHistory]
  · intro r prev hlen
    have : prev.dropLast = prev.take 19 := by
      rw [List.dropLast_eq_take, hlen]
    simp [pushHistory, this]
  · intro rs
    induction rs with
    | nil => intro h0 h; simpa using h
    | cons r rs ih =>
        intro h0 _
        have hstep : (pushHistory r h0).length ≤ 20 := by simp [pushHistory]
        simpa using ih (pushHistory r h0) hstep

/-- Witness for C7: pushing onto a concrete full ledger of 20 entries evicts
the last entry. -/
theorem pushHistory_spec_witness :
    ((List.replicate 20 (⟨false, 0, 0, 0, 0⟩ : DetectionResult)).length = 20) ∧
    pushHistory ⟨true, 40, 60, 7, 3⟩ (List.replicate 20 ⟨false, 0, 0, 0, 0⟩) =
      ⟨true, 40, 60, 7, 3⟩ :: (List.replicate 20 (⟨false, 0, 0, 0, 0⟩ : DetectionResult)).dropLast := by
  refine ⟨by simp, ?_⟩
  exact pushHistory_spec.2.2.1 ⟨true, 40, 60, 7, 3⟩ _ (by simp)
